import Mathlib

/-!
# Verification of the virtio-input driver core (`src/virtio-drivers/src/device/input/mod.rs`)

This file shallowly embeds the virtio-input driver from the repository and
proves the specification claims about it.  The driver file itself
(`mod.rs`) is embedded faithfully; the collaborating modules of the crate
(`crate::queue::VirtIoQueue`, `crate::transport::Transport`,
`crate::volatile`, the `ty` submodule) are not present under `src/` and are
modelled from the specification's collaborator contracts (spec sections 4.2,
6): the ring primitive is a fixed pool of `QUEUE_SIZE` descriptors managed
through a free list (which yields the positional-stability guarantee the
spec states for this usage pattern), the transport is an oracle of
per-operation outcomes together with a log of the calls made, and the MMIO
config region is a device-response oracle with a register-access log.

Fallible Rust operations (`VirtIoResult`) become `Except VirtIoError`;
Rust panics (`assert_eq!`, `.expect`, slice-bounds violations) become the
distinguished error values `assertFailed`, `expectFailed`, `boundsPanic`.
Since the Rust methods mutate `&mut self` before they can fail, every
embedded operation returns the state reached at the point of failure
alongside the `Except` result.
-/

/-- The queue size constant of the driver (`const QUEUE_SIZE: usize = 32`). -/
def QUEUE_SIZE : Nat := 32

/-- The event queue index (`const QUEUE_EVENT: u16 = 0`). -/
def QUEUE_EVENT : Nat := 0

/-- The status queue index (`const QUEUE_STATUS: u16 = 1`). -/
def QUEUE_STATUS : Nat := 1

/-- Modelled from the spec: `EventRecord` is "a fixed-size, plain-data record
(type, code, value) representing one input event; default-valued (all zero)
when uninitialized" (spec section 3).  The concrete `ty::InputEvent` module is
not under `src/`. -/
structure InputEvent where
  evType : Nat
  code : Nat
  value : Nat
deriving DecidableEq, Repr

/-- The `InputEvent::default()` record: all zero. -/
def InputEvent.default : InputEvent := ⟨0, 0, 0⟩

instance : Inhabited InputEvent := ⟨InputEvent.default⟩

/-- Descriptor access flag; the driver only ever uses `DescFlag::WRITE`
(device-writable). -/
inductive DescFlag where
  | WRITE
  | NEXT
deriving DecidableEq, Repr

/-- Modelled from the spec: a descriptor is "a (address, length,
access-flags) triple describing one buffer made available to the device"
(spec glossary). -/
structure Descriptor where
  addr : Nat
  len : Nat
  flags : DescFlag
deriving DecidableEq, Repr

/-- Abstract stable address of buffer slot `i`
(`&event_buf[i] as *const InputEvent as _`); slots are addressed by index,
per the spec's "slot index, stable memory region" design note. -/
def bufAddr (i : Nat) : Nat := i

/-- The value of `size_of::<InputEvent>()`: the wire size of one event record
(type: u16, code: u16, value: u32). -/
def eventSize : Nat := 8

/-- The descriptor the driver submits for buffer slot `i`, both while priming
and when re-submitting after a pop: the slot's stable address, the event
record's wire size, device-writable (`Descriptor::new(addr, size, WRITE)`). -/
def slotDesc (i : Nat) : Descriptor := ⟨bufAddr i, eventSize, .WRITE⟩

/-- The error taxonomy of `VirtIoResult`: transport/IO errors, queue-full on
`add`, retire of a token that is not ready, and the three Rust panic sites of
the driver (`assert_eq!` on a token, `.expect` in `drop`, slice bounds in
`query_config_select`). -/
inductive VirtIoError where
  | ioError
  | queueFull
  | notReady
  | assertFailed
  | expectFailed
  | boundsPanic
deriving DecidableEq, Repr

/-- Modelled from the spec: the ring primitive (`crate::queue::VirtIoQueue`,
not under `src/`) with the contract `submit -> Token | Error`,
`peek_completed() -> Option<Token>`, `retire(token) -> () | Error`
(spec section 6).  `freeList` holds the indices of descriptors not currently
posted to the device, head first; `usedRing` holds completed tokens in
device-completion order, head first; `submitLog` records every submitted
`(token, descriptor)` pair, most recent first.  Allocating from the head of
the free list and retiring to the head realizes the positional-stability
guarantee the spec gives for this driver's one-descriptor-per-slot usage
pattern (spec section 3, RingToken invariant). -/
structure VirtIoQueue where
  freeList : List Nat
  usedRing : List Nat
  submitLog : List (Nat × Descriptor)
deriving DecidableEq, Repr

/-- A fresh queue as built by `VirtIoQueue::new` of size `QUEUE_SIZE`, all descriptors
free, nothing completed, nothing submitted. -/
def VirtIoQueue.fresh : VirtIoQueue :=
  ⟨List.range QUEUE_SIZE, [], []⟩

/-- The `add` operation of the queue: take the next free descriptor index as a token and
record the submission; fails with `queueFull` when no descriptor is free. -/
def VirtIoQueue.add (q : VirtIoQueue) (d : Descriptor) :
    Except VirtIoError (Nat × VirtIoQueue) :=
  match q.freeList with
  | [] => .error .queueFull
  | t :: rest => .ok (t, ⟨rest, q.usedRing, (t, d) :: q.submitLog⟩)

/-- The `peek_used` operation of the queue: the oldest completed token, if any, without
retiring it. -/
def VirtIoQueue.peek_used (q : VirtIoQueue) : Option Nat :=
  q.usedRing.head?

/-- The `pop_used` operation of the queue: retire completion `t`; `t` must be the oldest
completed token.  The written length returned by the real queue is ignored by
the driver (`let _ = ...`), so the model returns the freed token's slot.
Retiring returns the descriptor to the head of the free list. -/
def VirtIoQueue.pop_used (q : VirtIoQueue) (t : Nat) :
    Except VirtIoError (Nat × VirtIoQueue) :=
  match q.usedRing with
  | [] => .error .notReady
  | u :: rest =>
      if u = t then .ok (t, ⟨t :: q.freeList, rest, q.submitLog⟩)
      else .error .notReady

/-- Number of buffer slots currently posted to the device: the descriptors
not on the free list. -/
def VirtIoQueue.postedCount (q : VirtIoQueue) : Nat :=
  QUEUE_SIZE - q.freeList.length

/-- Transport calls the driver makes, for the call-log observations
(`begin_init`, queue registration inside `VirtIoQueue::new`, `notify`,
`finish_init`, `ack_interrupt`, `queue_unset`). -/
inductive TCall where
  | beginInit
  | queueSet (idx : Nat)
  | queueUnset (idx : Nat)
  | notify (idx : Nat)
  | finishInit
  | ackInterrupt
deriving DecidableEq, Repr

/-- Modelled from the spec: outcome oracle for the transport operations used
by `VirtIOInput::new` (spec section 6: each transport operation is
independently fallible), plus the ring's notification-suppression answer
after priming (`needs_notify() -> bool`). -/
structure NewEnv where
  beginInitOk : Bool
  queueNewEventOk : Bool
  queueNewStatusOk : Bool
  shouldNotifyAfterPrime : Bool
  notifyOk : Bool
  finishInitOk : Bool
deriving DecidableEq, Repr

/-- The driver state owned by a `VirtIOInput` instance: the two virtqueues
and the event buffer `Box<[InputEvent; QUEUE_SIZE]>` (a list of length
`QUEUE_SIZE`). -/
structure DriverState where
  eventQueue : VirtIoQueue
  statusQueue : VirtIoQueue
  eventBuf : List InputEvent
deriving DecidableEq, Repr

/-- The priming loop of `VirtIOInput::new`: for each `i` in `0..QUEUE_SIZE`,
submit a device-writable descriptor for `event_buf[i]` and
`assert_eq!(token, i)` (panic `assertFailed` if the assertion fires). -/
def primeLoop : Nat → VirtIoQueue → Except VirtIoError VirtIoQueue
  | 0, q => .ok q
  | n + 1, q =>
      let i := QUEUE_SIZE - (n + 1)
      match q.add (slotDesc i) with
      | .error e => .error e
      | .ok (token, q') =>
          if token = i then primeLoop n q' else .error .assertFailed

/-- Embeds `VirtIOInput::new`: begin_init, allocate the (all-zero) event buffer,
register the event queue then the status queue, prime the event ring,
notify if `should_notify()`, finish_init.  Returns the transport-call log
together with the constructed driver or the error that aborted
construction. -/
def newDriver (env : NewEnv) : List TCall × Except VirtIoError DriverState :=
  if !env.beginInitOk then ([.beginInit], .error .ioError)
  else if !env.queueNewEventOk then
    ([.beginInit, .queueSet QUEUE_EVENT], .error .ioError)
  else if !env.queueNewStatusOk then
    ([.beginInit, .queueSet QUEUE_EVENT, .queueSet QUEUE_STATUS], .error .ioError)
  else
    let log0 : List TCall := [.beginInit, .queueSet QUEUE_EVENT, .queueSet QUEUE_STATUS]
    match primeLoop QUEUE_SIZE VirtIoQueue.fresh with
    | .error e => (log0, .error e)
    | .ok eq =>
        let afterNotify : List TCall :=
          if env.shouldNotifyAfterPrime then log0 ++ [.notify QUEUE_EVENT] else log0
        if env.shouldNotifyAfterPrime ∧ !env.notifyOk then
          (afterNotify, .error .ioError)
        else if !env.finishInitOk then
          (afterNotify ++ [.finishInit], .error .ioError)
        else
          (afterNotify ++ [.finishInit],
           .ok ⟨eq, VirtIoQueue.fresh, List.replicate QUEUE_SIZE InputEvent.default⟩)

/-- Embeds `VirtIOInput::pop_pending_event`: peek a completed token; if none,
`Ok(None)`.  Otherwise retire it, copy the event record of that slot by
value, re-submit the same slot with a fresh device-writable descriptor,
assert the new token equals the old, notify if `should_notify()`, and return
the copy.  The returned state is the state reached even when the result is
an error (Rust mutates `&mut self` in place). -/
def popPendingEvent (s : DriverState) (shouldNotify notifyOk : Bool) :
    DriverState × List TCall × Except VirtIoError (Option InputEvent) :=
  match s.eventQueue.peek_used with
  | none => (s, [], .ok none)
  | some token =>
      match s.eventQueue.pop_used token with
      | .error e => (s, [], .error e)
      | .ok (_, q1) =>
          let eventSaved := s.eventBuf.getD token InputEvent.default
          match q1.add (slotDesc token) with
          | .error e => ({ s with eventQueue := q1 }, [], .error e)
          | .ok (newToken, q2) =>
              if newToken = token then
                let s2 := { s with eventQueue := q2 }
                if shouldNotify then
                  if notifyOk then (s2, [.notify QUEUE_EVENT], .ok (some eventSaved))
                  else (s2, [.notify QUEUE_EVENT], .error .ioError)
                else (s2, [], .ok (some eventSaved))
              else ({ s with eventQueue := q2 }, [], .error .assertFailed)

/-- Embeds `VirtIOInput::ack_interrupt`: delegates to the transport and does not
touch the driver state. -/
def ackInterrupt (s : DriverState) (ackResult : Bool) (ackOk : Bool) :
    DriverState × List TCall × Except VirtIoError Bool :=
  (s, [.ackInterrupt], if ackOk then .ok ackResult else .error .ioError)

/-- Embeds `Drop for VirtIOInput`: `queue_unset(QUEUE_EVENT).expect(..)` then
`queue_unset(QUEUE_STATUS).expect(..)`.  An `.expect` on a failed unset
panics (`expectFailed`) immediately, so the second unset is only reached
when the first succeeded. -/
def dropDriver (eventUnsetOk statusUnsetOk : Bool) :
    List TCall × Except VirtIoError Unit :=
  if !eventUnsetOk then ([.queueUnset QUEUE_EVENT], .error .expectFailed)
  else if !statusUnsetOk then
    ([.queueUnset QUEUE_EVENT, .queueUnset QUEUE_STATUS], .error .expectFailed)
  else ([.queueUnset QUEUE_EVENT, .queueUnset QUEUE_STATUS], .ok ())

/-- Register accesses performed by `query_config_select`, in order, for the
register-order observation (spec section 4.4: order matters). -/
inductive RegOp where
  | writeSelect (v : Nat)
  | writeSubsel (v : Nat)
  | readSize
  | readData
deriving DecidableEq, Repr

/-- Width of the fixed config data block (field `data: [u8; 128]` in the virtio
input config; spec section 4.4: "size is bounded by the fixed data-block
width, e.g. 128 bytes"). -/
def CONFIG_DATA_LEN : Nat := 128

/-- Modelled from the spec: the MMIO config region
(`crate::volatile::{ReadVolatile, WriteVolatile}` and `ty::InputConfig`, not
under `src/`): each register access is independently fallible, and the device
answers a latched (size, data) response (spec sections 4.4 and 6). -/
structure IoEnv where
  selectWriteOk : Bool
  subselWriteOk : Bool
  sizeReadOk : Bool
  dataReadOk : Bool
  respSize : Nat
  respData : List Nat
deriving DecidableEq, Repr

/-- The `size` byte the device reports (a `u8`). -/
def IoEnv.size (env : IoEnv) : Nat := env.respSize % 256

/-- The fixed-width `data` block the device reports, padded/truncated to
exactly `CONFIG_DATA_LEN` bytes. -/
def IoEnv.data (env : IoEnv) : List Nat :=
  (env.respData ++ List.replicate CONFIG_DATA_LEN 0).take CONFIG_DATA_LEN

/-- Embeds `VirtIOInput::query_config_select`: write `select` then `subsel`, read
the `size` byte and the `data` block, then
`out[..size].copy_from_slice(&data[..size])` — which panics (`boundsPanic`)
when `size` exceeds either `out.len()` or the data block width — and return
`size`.  The result carries the register-access log and, on success, the
returned size together with the updated contents of `out`. -/
def queryConfigSelect (env : IoEnv) (select subsel : Nat) (out : List Nat) :
    List RegOp × Except VirtIoError (Nat × List Nat) :=
  if !env.selectWriteOk then ([.writeSelect select], .error .ioError)
  else if !env.subselWriteOk then
    ([.writeSelect select, .writeSubsel subsel], .error .ioError)
  else if !env.sizeReadOk then
    ([.writeSelect select, .writeSubsel subsel, .readSize], .error .ioError)
  else if !env.dataReadOk then
    ([.writeSelect select, .writeSubsel subsel, .readSize, .readData], .error .ioError)
  else
    let fullLog : List RegOp :=
      [.writeSelect select, .writeSubsel subsel, .readSize, .readData]
    if env.size ≤ out.length ∧ env.size ≤ CONFIG_DATA_LEN then
      (fullLog, .ok (env.size, env.data.take env.size ++ out.drop env.size))
    else (fullLog, .error .boundsPanic)

/-- One device completion: the device writes record `r` into posted slot `t`
and appends `t` to the used ring.  The device only ever touches a slot that
is posted (not free) and not already pending (spec section 5: each slot has
exactly one outstanding descriptor); other indices leave the state
unchanged. -/
def deviceComplete (s : DriverState) (t : Nat) (r : InputEvent) : DriverState :=
  if t < QUEUE_SIZE ∧ t ∉ s.eventQueue.freeList ∧ t ∉ s.eventQueue.usedRing then
    { s with
      eventBuf := s.eventBuf.set t r
      eventQueue :=
        ⟨s.eventQueue.freeList, s.eventQueue.usedRing ++ [t], s.eventQueue.submitLog⟩ }
  else s

/-- One steady-state interaction: a device completion, a
`pop_pending_event` call (with that call's notification-suppression answer
and notify outcome), an `ack_interrupt` call, or a config query (which does
not touch the ring state). -/
inductive SOp where
  | dev (t : Nat) (r : InputEvent)
  | pop (shouldNotify notifyOk : Bool)
  | ack (result ok : Bool)
  | query (env : IoEnv) (select subsel : Nat) (out : List Nat)
deriving Repr

/-- The driver state after one steady-state interaction (Rust mutates the
driver in place, so the post-state is taken even when the operation
errors). -/
def stepOp (s : DriverState) (op : SOp) : DriverState :=
  match op with
  | .dev t r => deviceComplete s t r
  | .pop sn nk => (popPendingEvent s sn nk).1
  | .ack r ok => (ackInterrupt s r ok).1
  | .query _ _ _ _ => s

/-- The driver state after a sequence of steady-state interactions. -/
def runOps (s : DriverState) (ops : List SOp) : DriverState :=
  ops.foldl stepOp s

/-- The environment in which every construction-time transport operation
succeeds and the ring asks for a notification after priming. -/
def allOkEnv : NewEnv := ⟨true, true, true, true, true, true⟩


/-- The event queue right after a successful priming loop: no free
descriptor, no pending completion, slots 0..31 submitted in order (most
recent first in the log). -/
def primedQueue : VirtIoQueue :=
  ⟨[], [], ((List.range QUEUE_SIZE).map fun i => (i, slotDesc i)).reverse⟩

/-- The driver state a successful `VirtIOInput::new` produces: a fully
primed event queue, an untouched status queue, and the all-zero event
buffer. -/
def primedState : DriverState :=
  ⟨primedQueue, VirtIoQueue.fresh, List.replicate QUEUE_SIZE InputEvent.default⟩

lemma primeLoop_fresh : primeLoop QUEUE_SIZE VirtIoQueue.fresh = .ok primedQueue := by
  rfl

lemma newDriver_ok_state (env : NewEnv) (s0 : DriverState)
    (h : (newDriver env).2 = .ok s0) : s0 = primedState := by
  obtain ⟨b1, b2, b3, b4, b5, b6⟩ := env
  cases b1 <;> cases b2 <;> cases b3 <;> cases b4 <;> cases b5 <;> cases b6 <;>
    first
      | exact Except.noConfusion h
      | exact (Except.ok.inj h).symm

lemma popPendingEvent_nil (s : DriverState) (sn nk : Bool)
    (h : s.eventQueue.usedRing = []) :
    popPendingEvent s sn nk = (s, [], .ok none) := by
  obtain ⟨⟨fl, ur, sl⟩, sq, buf⟩ := s
  simp only at h
  subst h
  rfl

lemma popPendingEvent_cons (s : DriverState) (t : Nat) (rest : List Nat)
    (sn nk : Bool) (h : s.eventQueue.usedRing = t :: rest) :
    popPendingEvent s sn nk =
      ({ s with eventQueue :=
          ⟨s.eventQueue.freeList, rest, (t, slotDesc t) :: s.eventQueue.submitLog⟩ },
       (if sn then [TCall.notify QUEUE_EVENT] else []),
       (if sn && !nk then Except.error VirtIoError.ioError
        else Except.ok (some (s.eventBuf.getD t InputEvent.default)))) := by
  obtain ⟨⟨fl, ur, sl⟩, sq, buf⟩ := s
  simp only at h
  subst h
  simp only [popPendingEvent, VirtIoQueue.peek_used, VirtIoQueue.pop_used,
    VirtIoQueue.add, List.head?]
  cases sn <;> cases nk <;> simp

lemma popPendingEvent_state_eventQueue (s : DriverState) (sn nk : Bool) :
    ((popPendingEvent s sn nk).1.eventQueue.freeList = s.eventQueue.freeList)
    ∧ ((popPendingEvent s sn nk).1.statusQueue = s.statusQueue)
    ∧ ((popPendingEvent s sn nk).1.eventBuf = s.eventBuf) := by
  cases h : s.eventQueue.usedRing with
  | nil => rw [popPendingEvent_nil s sn nk h]; exact ⟨rfl, rfl, rfl⟩
  | cons t rest => rw [popPendingEvent_cons s t rest sn nk h]; exact ⟨rfl, rfl, rfl⟩

lemma deviceComplete_state (s : DriverState) (t : Nat) (r : InputEvent) :
    ((deviceComplete s t r).eventQueue.freeList = s.eventQueue.freeList)
    ∧ ((deviceComplete s t r).statusQueue = s.statusQueue) := by
  unfold deviceComplete
  split <;> exact ⟨rfl, rfl⟩

lemma stepOp_state (s : DriverState) (op : SOp) :
    ((stepOp s op).eventQueue.freeList = s.eventQueue.freeList)
    ∧ ((stepOp s op).statusQueue = s.statusQueue) := by
  cases op with
  | dev t r => exact deviceComplete_state s t r
  | pop sn nk =>
      exact ⟨(popPendingEvent_state_eventQueue s sn nk).1,
             (popPendingEvent_state_eventQueue s sn nk).2.1⟩
  | ack r ok => exact ⟨rfl, rfl⟩
  | query e a b o => exact ⟨rfl, rfl⟩

lemma runOps_state (s : DriverState) (ops : List SOp) :
    ((runOps s ops).eventQueue.freeList = s.eventQueue.freeList)
    ∧ ((runOps s ops).statusQueue = s.statusQueue) := by
  induction ops generalizing s with
  | nil => exact ⟨rfl, rfl⟩
  | cons op ops ih =>
      have h1 := stepOp_state s op
      have h2 := ih (stepOp s op)
      exact ⟨h2.1.trans h1.1, h2.2.trans h1.2⟩

/-- C1: Ring capacity invariant — starting from any successfully constructed
driver, after every prefix of any interleaving of device completions,
`pop_pending_event` calls (successful or not), interrupt acknowledgments and
config queries, every one of the `QUEUE_SIZE` buffer slots is posted to the
device (the free list is empty, so the posted-slot count is exactly
`QUEUE_SIZE`); in particular the count is `QUEUE_SIZE` immediately before and
immediately after each successful `pop_pending_event`, the drained slot being
re-submitted within the same call. -/
theorem ring_capacity_invariant (env : NewEnv) (s0 : DriverState)
    (h : (newDriver env).2 = .ok s0) (ops : List SOp) (n : Nat) :
    ((runOps s0 (ops.take n)).eventQueue.freeList = [])
    ∧ ((runOps s0 (ops.take n)).eventQueue.postedCount = QUEUE_SIZE) := by
  have hs := newDriver_ok_state env s0 h
  subst hs
  have hf := (runOps_state primedState (ops.take n)).1
  have hp : primedState.eventQueue.freeList = [] := rfl
  rw [hp] at hf
  refine ⟨hf, ?_⟩
  unfold VirtIoQueue.postedCount
  rw [hf]
  rfl

/-- Witness for `ring_capacity_invariant`: the all-success environment
constructs the primed state, and the invariant evaluates on a concrete
run containing one completion and one pop. -/
theorem ring_capacity_invariant_witness :
    ((newDriver allOkEnv).2 = .ok primedState)
    ∧ (((runOps primedState ([SOp.dev 3 ⟨1, 2, 3⟩, SOp.pop true true].take 2)).eventQueue.freeList = [])
       ∧ ((runOps primedState ([SOp.dev 3 ⟨1, 2, 3⟩, SOp.pop true true].take 2)).eventQueue.postedCount = QUEUE_SIZE)) :=
  ⟨by rfl,
   ring_capacity_invariant allOkEnv primedState (by rfl)
     [SOp.dev 3 ⟨1, 2, 3⟩, SOp.pop true true] 2⟩

/-- C3: Token stability — for a successfully constructed driver, the tokens
returned while priming are exactly `0, 1, ..., QUEUE_SIZE - 1` in submission
order (so each priming `assert_eq!(token, i)` passed), and whenever a
completed token `t` is at the head of the used ring in any reachable state,
`pop_pending_event` re-submits slot `t` and receives token `t` back (its last
submission is `(t, slotDesc t)`), so its `assert_eq!(new_token, token)` never
fails: the result is never the assertion-failure panic. -/
theorem token_stability (env : NewEnv) (s0 : DriverState)
    (h : (newDriver env).2 = .ok s0) (ops : List SOp) (sn nk : Bool)
    (t : Nat) (rest : List Nat)
    (hur : (runOps s0 ops).eventQueue.usedRing = t :: rest) :
    (s0.eventQueue.submitLog.reverse.map Prod.fst = List.range QUEUE_SIZE)
    ∧ ((popPendingEvent (runOps s0 ops) sn nk).2.2 ≠ .error .assertFailed)
    ∧ ((popPendingEvent (runOps s0 ops) sn nk).1.eventQueue.submitLog.head? =
        some (t, slotDesc t)) := by
  have hs := newDriver_ok_state env s0 h
  subst hs
  refine ⟨by decide, ?_, ?_⟩
  · rw [popPendingEvent_cons _ t rest sn nk hur]
    cases sn <;> cases nk <;> simp
  · rw [popPendingEvent_cons _ t rest sn nk hur]
    rfl

/-- Witness for `token_stability`: the device completes slot 0 of the freshly
primed driver and a pop is performed. -/
theorem token_stability_witness :
    ((newDriver allOkEnv).2 = .ok primedState)
    ∧ ((runOps primedState [SOp.dev 0 ⟨1, 2, 3⟩]).eventQueue.usedRing = 0 :: [])
    ∧ ((primedState.eventQueue.submitLog.reverse.map Prod.fst = List.range QUEUE_SIZE)
       ∧ ((popPendingEvent (runOps primedState [SOp.dev 0 ⟨1, 2, 3⟩]) true true).2.2 ≠ .error .assertFailed)
       ∧ ((popPendingEvent (runOps primedState [SOp.dev 0 ⟨1, 2, 3⟩]) true true).1.eventQueue.submitLog.head? =
           some (0, slotDesc 0))) :=
  ⟨by rfl, by rfl,
   token_stability allOkEnv primedState (by rfl) [SOp.dev 0 ⟨1, 2, 3⟩] true true 0 [] (by rfl)⟩

/-- C4: When a completed token `t` is available (head of the used ring) in
any reachable state and the notification does not fail, `pop_pending_event`
returns `Ok(Some e)` where `e` is the by-value copy of the event record
stored in slot `t` at the time of the call (taken before re-submission), and
re-submits slot `t` with a fresh device-writable descriptor referencing the
slot's buffer address; when no completed token is available it returns
`Ok(None)`. -/
theorem pop_event_copy (env : NewEnv) (s0 : DriverState)
    (_h : (newDriver env).2 = .ok s0) (ops opsE : List SOp)
    (sn snE nkE : Bool) (t : Nat) (rest : List Nat)
    (hur : (runOps s0 ops).eventQueue.usedRing = t :: rest)
    (hurE : (runOps s0 opsE).eventQueue.usedRing = []) :
    ((popPendingEvent (runOps s0 ops) sn true).2.2 =
        .ok (some ((runOps s0 ops).eventBuf.getD t InputEvent.default)))
    ∧ ((popPendingEvent (runOps s0 ops) sn true).1.eventQueue.submitLog.head? =
        some (t, slotDesc t))
    ∧ ((popPendingEvent (runOps s0 opsE) snE nkE).2.2 = .ok none) := by
  refine ⟨?_, ?_, ?_⟩
  · rw [popPendingEvent_cons _ t rest sn true hur]
    cases sn <;> rfl
  · rw [popPendingEvent_cons _ t rest sn true hur]
    rfl
  · rw [popPendingEvent_nil _ snE nkE hurE]

/-- Witness for `pop_event_copy`: the device writes record `(7, 8, 9)` into
slot 2 of the primed driver; popping returns exactly that record, and a pop
on the freshly primed driver (no completion) returns `Ok(None)`. -/
theorem pop_event_copy_witness :
    ((newDriver allOkEnv).2 = .ok primedState)
    ∧ ((runOps primedState [SOp.dev 2 ⟨7, 8, 9⟩]).eventQueue.usedRing = 2 :: [])
    ∧ ((runOps primedState []).eventQueue.usedRing = [])
    ∧ (((popPendingEvent (runOps primedState [SOp.dev 2 ⟨7, 8, 9⟩]) true true).2.2 =
          .ok (some ((runOps primedState [SOp.dev 2 ⟨7, 8, 9⟩]).eventBuf.getD 2 InputEvent.default)))
       ∧ ((popPendingEvent (runOps primedState [SOp.dev 2 ⟨7, 8, 9⟩]) true true).1.eventQueue.submitLog.head? =
           some (2, slotDesc 2))
       ∧ ((popPendingEvent (runOps primedState []) false false).2.2 = .ok none)) :=
  ⟨by rfl, by rfl, by rfl,
   pop_event_copy allOkEnv primedState (by rfl) [SOp.dev 2 ⟨7, 8, 9⟩] []
     true false false 2 [] (by rfl) (by rfl)⟩

/-- C10: `pop_pending_event` is not atomic on a notification failure — in any
reachable state with completed token `t` at the head of the used ring, if the
ring asks for a notification and the transport notify fails, the call returns
`Err` while the completion has already been retired (the used ring advanced
past `t`) and slot `t` has already been re-submitted; the copied event record
is discarded rather than delivered, and the advanced ring state cannot
re-deliver it. -/
theorem pop_notify_failure_drops_event (env : NewEnv) (s0 : DriverState)
    (_h : (newDriver env).2 = .ok s0) (ops : List SOp)
    (t : Nat) (rest : List Nat)
    (hur : (runOps s0 ops).eventQueue.usedRing = t :: rest) :
    ((popPendingEvent (runOps s0 ops) true false).2.2 = .error .ioError)
    ∧ ((popPendingEvent (runOps s0 ops) true false).2.1 = [TCall.notify QUEUE_EVENT])
    ∧ ((popPendingEvent (runOps s0 ops) true false).1.eventQueue.usedRing = rest)
    ∧ ((popPendingEvent (runOps s0 ops) true false).1.eventQueue.submitLog.head? =
        some (t, slotDesc t)) := by
  rw [popPendingEvent_cons _ t rest true false hur]
  exact ⟨rfl, rfl, rfl, rfl⟩

/-- Witness for `pop_notify_failure_drops_event`: slot 4 completes with
record `(1, 1, 1)`; a pop whose notify fails returns the IO error with the
ring already advanced. -/
theorem pop_notify_failure_drops_event_witness :
    ((newDriver allOkEnv).2 = .ok primedState)
    ∧ ((runOps primedState [SOp.dev 4 ⟨1, 1, 1⟩]).eventQueue.usedRing = 4 :: [])
    ∧ (((popPendingEvent (runOps primedState [SOp.dev 4 ⟨1, 1, 1⟩]) true false).2.2 = .error .ioError)
       ∧ ((popPendingEvent (runOps primedState [SOp.dev 4 ⟨1, 1, 1⟩]) true false).2.1 = [TCall.notify QUEUE_EVENT])
       ∧ ((popPendingEvent (runOps primedState [SOp.dev 4 ⟨1, 1, 1⟩]) true false).1.eventQueue.usedRing = [])
       ∧ ((popPendingEvent (runOps primedState [SOp.dev 4 ⟨1, 1, 1⟩]) true false).1.eventQueue.submitLog.head? =
           some (4, slotDesc 4))) :=
  ⟨by rfl, by rfl,
   pop_notify_failure_drops_event allOkEnv primedState (by rfl) [SOp.dev 4 ⟨1, 1, 1⟩] 4 [] (by rfl)⟩

/-- C7: Construction is all-or-nothing — `VirtIOInput::new` produces a driver
exactly when `begin_init`, both queue registrations, the post-prime
notification (whenever the ring asked for one), and `finish_init` all
succeed; if any of these handshake steps fails, `new` returns an error and no
driver instance is produced.  (Priming a fresh ring of `QUEUE_SIZE` free
descriptors provably cannot fail, so its failure case propagates vacuously.) -/
theorem new_all_or_nothing (env : NewEnv) :
    (newDriver env).2.isOk =
      (env.beginInitOk && env.queueNewEventOk && env.queueNewStatusOk
        && (!env.shouldNotifyAfterPrime || env.notifyOk) && env.finishInitOk) := by
  obtain ⟨b1, b2, b3, b4, b5, b6⟩ := env
  cases b1 <;> cases b2 <;> cases b3 <;> cases b4 <;> cases b5 <;> cases b6 <;> rfl

/-- C8 counterexample: the claim "the driver notifies unconditionally after
priming, regardless of the should-notify check" is false — in the environment
where the ring's should-notify check answers `false`, construction succeeds
and no notification is ever sent. -/
theorem prime_notify_suppressed :
    ((newDriver ⟨true, true, true, false, true, true⟩).2.isOk = true)
    ∧ (TCall.notify QUEUE_EVENT ∉ (newDriver ⟨true, true, true, false, true, true⟩).1) := by
  exact ⟨rfl, by decide⟩

/-- C8 (amended): after submitting all `QUEUE_SIZE` priming descriptors,
`VirtIOInput::new` consults the ring's should-notify check and sends exactly
one notification if and only if the check indicates one is needed. -/
theorem prime_notify_iff_should (env : NewEnv)
    (h1 : env.beginInitOk = true) (h2 : env.queueNewEventOk = true)
    (h3 : env.queueNewStatusOk = true) :
    (TCall.notify QUEUE_EVENT ∈ (newDriver env).1) ↔
      env.shouldNotifyAfterPrime = true := by
  obtain ⟨b1, b2, b3, b4, b5, b6⟩ := env
  simp only at h1 h2 h3
  subst h1; subst h2; subst h3
  cases b4 <;> cases b5 <;> cases b6 <;> decide

/-- Witness for `prime_notify_iff_should`: in the all-success environment the
should-notify check answers `true` and the notification shows up in the
transport log. -/
theorem prime_notify_iff_should_witness :
    (allOkEnv.beginInitOk = true ∧ allOkEnv.queueNewEventOk = true
      ∧ allOkEnv.queueNewStatusOk = true)
    ∧ ((TCall.notify QUEUE_EVENT ∈ (newDriver allOkEnv).1) ↔
        allOkEnv.shouldNotifyAfterPrime = true) :=
  ⟨⟨rfl, rfl, rfl⟩, prime_notify_iff_should allOkEnv rfl rfl rfl⟩

/-- C2 counterexample: the claim "unregistering is attempted for the status
queue even if unregistering the event queue fails" is false — when
`queue_unset(QUEUE_EVENT)` fails, the `.expect` panics immediately and
`queue_unset(QUEUE_STATUS)` is never invoked. -/
theorem drop_event_failure_skips_status :
    ((dropDriver false true).2 = .error .expectFailed)
    ∧ (TCall.queueUnset QUEUE_STATUS ∉ (dropDriver false true).1) := by
  exact ⟨rfl, by decide⟩

/-- C2 (amended): on teardown the event queue is unregistered first; the
status queue is unregistered (exactly once) only when the event-queue
unregister succeeded; any unregister failure is escalated as an unrecoverable
panic at that point; when both succeed each queue is unregistered exactly
once, event queue first then status queue. -/
theorem drop_unregister_order (e s : Bool) :
    ((dropDriver e s).1 =
      (if e then [TCall.queueUnset QUEUE_EVENT, TCall.queueUnset QUEUE_STATUS]
       else [TCall.queueUnset QUEUE_EVENT]))
    ∧ ((dropDriver e s).2 = (if e && s then .ok () else .error .expectFailed)) := by
  cases e <;> cases s <;> exact ⟨rfl, rfl⟩

/-- C9: The driver never submits a descriptor to the status queue — starting
from any successfully constructed driver, after any sequence of device
completions, `pop_pending_event`, `ack_interrupt` and `query_config_select`
calls, the status queue is still exactly the fresh queue created in `new`
with an empty submission log; construction registers the status queue exactly
once, and teardown unregisters it exactly once. -/
theorem status_queue_never_used (env : NewEnv) (s0 : DriverState)
    (h : (newDriver env).2 = .ok s0) (ops : List SOp) :
    ((runOps s0 ops).statusQueue = VirtIoQueue.fresh)
    ∧ ((runOps s0 ops).statusQueue.submitLog = [])
    ∧ ((newDriver env).1.count (TCall.queueSet QUEUE_STATUS) = 1)
    ∧ ((dropDriver true true).1.count (TCall.queueUnset QUEUE_STATUS) = 1) := by
  have hs := newDriver_ok_state env s0 h
  subst hs
  have h2 := (runOps_state primedState ops).2
  have hfresh : (runOps primedState ops).statusQueue = VirtIoQueue.fresh := h2.trans rfl
  refine ⟨hfresh, ?_, ?_, by decide⟩
  · rw [hfresh]
    rfl
  · obtain ⟨b1, b2, b3, b4, b5, b6⟩ := env
    cases b1 <;> cases b2 <;> cases b3 <;> cases b4 <;> cases b5 <;> cases b6 <;>
      first
        | exact Except.noConfusion h
        | decide

/-- Witness for `status_queue_never_used`: a run with a completion, a pop and
an interrupt acknowledgment from the all-success construction. -/
theorem status_queue_never_used_witness :
    ((newDriver allOkEnv).2 = .ok primedState)
    ∧ (((runOps primedState [SOp.dev 1 ⟨5, 5, 5⟩, SOp.pop true true, SOp.ack true true]).statusQueue = VirtIoQueue.fresh)
       ∧ ((runOps primedState [SOp.dev 1 ⟨5, 5, 5⟩, SOp.pop true true, SOp.ack true true]).statusQueue.submitLog = [])
       ∧ ((newDriver allOkEnv).1.count (TCall.queueSet QUEUE_STATUS) = 1)
       ∧ ((dropDriver true true).1.count (TCall.queueUnset QUEUE_STATUS) = 1)) :=
  ⟨by rfl,
   status_queue_never_used allOkEnv primedState (by rfl)
     [SOp.dev 1 ⟨5, 5, 5⟩, SOp.pop true true, SOp.ack true true]⟩

lemma IoEnv.data_length (env : IoEnv) : env.data.length = CONFIG_DATA_LEN := by
  unfold IoEnv.data
  rw [List.length_take, List.length_append, List.length_replicate]
  omega

/-- C5: Config query round trip — with all register accesses succeeding,
`query_config_select` performs exactly the accesses
`[write select, write subsel, read size, read data]` in that order (the
select write strictly before the subsel write), returns the device-reported
size, and replaces the first `size` bytes of the output buffer with the first
`size` bytes of the data block while preserving the rest; in particular the
first `size` bytes of the resulting buffer equal the device's pattern. -/
theorem query_config_roundtrip (env : IoEnv) (select subsel : Nat)
    (out : List Nat)
    (h1 : env.selectWriteOk = true) (h2 : env.subselWriteOk = true)
    (h3 : env.sizeReadOk = true) (h4 : env.dataReadOk = true)
    (hcap : env.size ≤ out.length) (hwidth : env.size ≤ CONFIG_DATA_LEN) :
    ((queryConfigSelect env select subsel out).1 =
        [.writeSelect select, .writeSubsel subsel, .readSize, .readData])
    ∧ ((queryConfigSelect env select subsel out).2 =
        .ok (env.size, env.data.take env.size ++ out.drop env.size))
    ∧ ((env.data.take env.size ++ out.drop env.size).take env.size =
        env.data.take env.size) := by
  have hlen : (env.data.take env.size).length = env.size := by
    rw [List.length_take, env.data_length]
    omega
  refine ⟨?_, ?_, List.take_left' hlen⟩ <;>
    simp [queryConfigSelect, h1, h2, h3, h4, hcap, hwidth]

/-- Witness for `query_config_roundtrip`: the device answers size 5 with
pattern `[10, 20, 30, 40, 50]`; an 8-byte output buffer ends up holding the
pattern in its first 5 bytes and the return value is 5. -/
theorem query_config_roundtrip_witness :
    ((⟨true, true, true, true, 5, [10, 20, 30, 40, 50]⟩ : IoEnv).selectWriteOk = true
      ∧ (⟨true, true, true, true, 5, [10, 20, 30, 40, 50]⟩ : IoEnv).size ≤ ([0, 0, 0, 0, 0, 0, 0, 0] : List Nat).length
      ∧ (⟨true, true, true, true, 5, [10, 20, 30, 40, 50]⟩ : IoEnv).size ≤ CONFIG_DATA_LEN)
    ∧ (((queryConfigSelect ⟨true, true, true, true, 5, [10, 20, 30, 40, 50]⟩ 1 0 [0, 0, 0, 0, 0, 0, 0, 0]).1 =
          [.writeSelect 1, .writeSubsel 0, .readSize, .readData])
       ∧ ((queryConfigSelect ⟨true, true, true, true, 5, [10, 20, 30, 40, 50]⟩ 1 0 [0, 0, 0, 0, 0, 0, 0, 0]).2 =
          .ok ((⟨true, true, true, true, 5, [10, 20, 30, 40, 50]⟩ : IoEnv).size,
               (⟨true, true, true, true, 5, [10, 20, 30, 40, 50]⟩ : IoEnv).data.take (⟨true, true, true, true, 5, [10, 20, 30, 40, 50]⟩ : IoEnv).size
                 ++ ([0, 0, 0, 0, 0, 0, 0, 0] : List Nat).drop (⟨true, true, true, true, 5, [10, 20, 30, 40, 50]⟩ : IoEnv).size))
       ∧ (((⟨true, true, true, true, 5, [10, 20, 30, 40, 50]⟩ : IoEnv).data.take (⟨true, true, true, true, 5, [10, 20, 30, 40, 50]⟩ : IoEnv).size
             ++ ([0, 0, 0, 0, 0, 0, 0, 0] : List Nat).drop (⟨true, true, true, true, 5, [10, 20, 30, 40, 50]⟩ : IoEnv).size).take
             (⟨true, true, true, true, 5, [10, 20, 30, 40, 50]⟩ : IoEnv).size =
           (⟨true, true, true, true, 5, [10, 20, 30, 40, 50]⟩ : IoEnv).data.take (⟨true, true, true, true, 5, [10, 20, 30, 40, 50]⟩ : IoEnv).size)) :=
  ⟨⟨rfl, by decide, by decide⟩,
   query_config_roundtrip ⟨true, true, true, true, 5, [10, 20, 30, 40, 50]⟩ 1 0
     [0, 0, 0, 0, 0, 0, 0, 0] rfl rfl rfl rfl (by decide) (by decide)⟩

/-- C6: An undersized output buffer makes `query_config_select` fail — when
every register access succeeds but the output buffer is shorter than the
device-reported size, the call ends in the slice-bounds panic and never
returns `Ok` with silently truncated data. -/
theorem query_undersized_fails (env : IoEnv) (select subsel : Nat)
    (out : List Nat)
    (h1 : env.selectWriteOk = true) (h2 : env.subselWriteOk = true)
    (h3 : env.sizeReadOk = true) (h4 : env.dataReadOk = true)
    (hlt : out.length < env.size) :
    (queryConfigSelect env select subsel out).2 = .error .boundsPanic := by
  have hn : ¬ (env.size ≤ out.length) := by omega
  simp [queryConfigSelect, h1, h2, h3, h4, hn]

/-- Witness for `query_undersized_fails`: the device reports size 5 but the
output buffer has capacity 4; the call panics on the slice bounds. -/
theorem query_undersized_fails_witness :
    (([0, 0, 0, 0] : List Nat).length < (⟨true, true, true, true, 5, [10, 20, 30, 40, 50]⟩ : IoEnv).size)
    ∧ ((queryConfigSelect ⟨true, true, true, true, 5, [10, 20, 30, 40, 50]⟩ 1 0 [0, 0, 0, 0]).2 =
        .error .boundsPanic) :=
  ⟨by decide,
   query_undersized_fails ⟨true, true, true, true, 5, [10, 20, 30, 40, 50]⟩ 1 0
     [0, 0, 0, 0] rfl rfl rfl rfl (by decide)⟩
